import Mathlib

/-!
Verification development for the BabyAgent video-analysis pipeline
(src/BabyAgent/vision.py).

The Python source is shallowly embedded: pure computations become Lean
functions over `ℚ` (Python floats carrying exact decimal values in the
scenarios of interest), `String` and `List`; the external services
(transcription, inference) become oracle functions passed as arguments,
with the sequence of service calls returned explicitly; the filesystem
effects of the pipeline are modelled as a record of presence flags for
the four paths the pipeline touches (acquisition temp directory, frame
scratch directory, scratch audio file, local input video file).
-/

namespace BabyAgent

/-! Section: Numeric helpers -/

/-- Python `int(x)` applied to a float/rational: truncation toward zero
(floor for nonnegative arguments, ceiling for negative ones). -/
def pyInt (q : ℚ) : ℤ := if 0 ≤ q then ⌊q⌋ else ⌈q⌉

/-! Section: Frame sampler (vision.py: `extract_frames`, lines 223-273) -/

/-- `frame_skip = max(1, int(fps * interval_sec))` (vision.py line 247).
Note the source uses Python `int` (truncation), not `round`. -/
def frame_skip (fps interval_sec : ℚ) : ℤ := max 1 (pyInt (fps * interval_sec))

/-- The normalized sampling window computed at vision.py lines 233-239.
`warned` records whether the "End timestamp must be greater than start"
diagnostic was printed. -/
structure NormalizedWindow where
  safeStart : ℚ
  safeEnd : Option ℚ
  warned : Bool
deriving DecidableEq

/-- vision.py lines 233-239: `safe_start = max(0.0, start_sec)`; a bounded
end at or before the start is dropped (full video) with a warning. -/
def normalize_window (start_sec : ℚ) (end_sec : Option ℚ) : NormalizedWindow :=
  let safeStart := max 0 start_sec
  match end_sec with
  | none => ⟨safeStart, none, false⟩
  | some e => if e ≤ safeStart then ⟨safeStart, none, true⟩ else ⟨safeStart, some e, false⟩

/-- The read/save loop of `extract_frames` (vision.py lines 254-270).
`startFrameIdx` is the absolute native index of the first frame the
capture will yield; a read succeeds while that absolute index is a valid
frame number (`0 ≤ · < numFrames`).  The loop breaks when the current
timestamp `currentFrame / fps` reaches the bounded end, else reads, and
persists every `fskip`-th iteration, returning the absolute native
indices of the persisted frames.  `fuel` bounds recursion; the caller
passes `numFrames + 1`, which the loop can never exhaust. -/
def extractFramesLoop (startFrameIdx : ℤ) (fps : ℚ) (fskip : ℤ) (numFrames : ℕ)
    (safeEnd : Option ℚ) : ℕ → ℤ → List ℤ
  | 0, _ => []
  | fuel + 1, frameIdx =>
    let currentFrame := startFrameIdx + frameIdx
    let currentTime : ℚ := if fps = 0 then 0 else (currentFrame : ℚ) / fps
    let timeBreak : Bool :=
      match safeEnd with
      | some e => decide (e ≤ currentTime)
      | none => false
    if timeBreak then []
    else if currentFrame < 0 ∨ (numFrames : ℤ) ≤ currentFrame then []
    else
      (if frameIdx % fskip = 0 then [currentFrame] else [])
        ++ extractFramesLoop startFrameIdx fps fskip numFrames safeEnd fuel (frameIdx + 1)

/-- vision.py `extract_frames`, lines 223-273, as the list of absolute
native frame indices persisted to disk.  Parameters standing for the
cv2 capture: `opened` (did the video open), `fpsRaw` (reported FPS, `0`
meaning unavailable, defaulted to 30), `posF` (the `CAP_PROP_POS_FRAMES`
value the stream reports after the seek to `safeStart`; the stream is
assumed to report its true position), `numFrames` (total decodable
frames).  When `safeStart = 0` no seek happens and the fresh capture
reports position `0`. -/
def extract_frames (opened : Bool) (fpsRaw posF : ℚ) (numFrames : ℕ)
    (interval_sec start_sec : ℚ) (end_sec : Option ℚ) : List ℤ :=
  let w := normalize_window start_sec end_sec
  if !opened then []
  else
    let fps := if fpsRaw = 0 then 30 else fpsRaw
    let fskip := frame_skip fps interval_sec
    let posFrames := if w.safeStart ≠ 0 then posF else 0
    let startFrameIdx := if 0 < posFrames then pyInt posFrames else pyInt (w.safeStart * fps)
    extractFramesLoop startFrameIdx fps fskip numFrames w.safeEnd (numFrames + 1) 0

/-! Section: Cue detection (vision.py: `detect_baby_sounds`, lines 109-116)

The source matches each cue with the regex `\b{cue}\b` under
`re.IGNORECASE`.  Word characters are modelled as ASCII alphanumerics
plus underscore (the cues and their neighbourhoods in all scenarios of
interest are ASCII). -/

/-- The fixed cue vocabulary `BABY_CRY_CUES` (vision.py line 28). -/
def BABY_CRY_CUES : List String := ["NEH", "OWH", "HEH", "EAIR", "EH"]

/-- A regex word character (`\w`), restricted to ASCII. -/
def isWordChar (c : Char) : Bool := c.isAlphanum || c = '_'

/-- Case-insensitive test that `cue` occurs verbatim at the head of `text`. -/
def ciStartsWith : List Char → List Char → Bool
  | [], _ => true
  | _ :: _, [] => false
  | c :: cs, t :: ts => (c.toLower == t.toLower) && ciStartsWith cs ts

/-- The `\b` test for the position just after a match: end of text or a
non-word character. -/
def afterBoundary : List Char → Bool
  | [] => true
  | c :: _ => !isWordChar c

/-- A whole-word match of `cue` begins at this position: the cue is a
case-insensitive head of the remaining text and a word boundary follows it.
(The boundary before the position is checked by the caller.) -/
def wbMatchHere (cue text : List Char) : Bool :=
  ciStartsWith cue text && afterBoundary (List.drop cue.length text)

/-- Scan for a whole-word match anywhere in the text; `prev` is the
character just before the current position (`none` at the start of the
text), giving the `\b` test before the match. -/
def wbSearchAux (cue : List Char) : Option Char → List Char → Bool
  | _, [] => false
  | prev, t :: ts =>
    ((match prev with
      | none => true
      | some p => !isWordChar p) && wbMatchHere cue (t :: ts))
    || wbSearchAux cue (some t) ts

/-- `re.search(rf"\b{cue}\b", text, flags=re.IGNORECASE)` is not `None`,
for an alphabetic `cue` (vision.py line 114). -/
def wordBoundarySearch (cue text : String) : Bool :=
  wbSearchAux cue.data none text.data

/-- vision.py `detect_baby_sounds`, lines 109-116: the cues of the fixed
vocabulary that have a case-insensitive whole-word occurrence in the
transcript, in vocabulary order, each reported at most once. -/
def detect_baby_sounds (transcript : String) : List String :=
  BABY_CRY_CUES.filter (fun cue => wordBoundarySearch cue transcript)

/-! Section: Source classification (vision.py: `is_url` line 96, `is_youtube_url`
line 104, and the dispatch of `prepare_video_input` lines 191-207)

`urllib.parse.urlparse` is modelled for the two fields the source reads
and for its one live failure mode: `scheme` is the text before the first
`:`, accepted when it is nonempty, starts with an ASCII letter and
consists of letters, digits, `+`, `-`, `.` (lowercased); `netloc` is the
text after a leading `//` of the remainder, up to the first `/`, `?` or
`#`; and the parse raises `ValueError` ("Invalid IPv6 URL") when that
netloc contains `[` without `]` or `]` without `[` — `is_url` catches
this and returns `False` (vision.py lines 97-100). -/

/-- A character allowed in a URL scheme. -/
def isSchemeChar (c : Char) : Bool :=
  c.isAlpha || c.isDigit || c = '+' || c = '-' || c = '.'

/-- Split a character list at its first `:`, when present. -/
def splitAtColon : List Char → Option (List Char × List Char)
  | [] => none
  | c :: cs =>
    if c = ':' then some ([], cs)
    else
      match splitAtColon cs with
      | some (pre, post) => some (c :: pre, post)
      | none => none

/-- `urlparse(source).scheme`: lowercased scheme when the text before the
first `:` is a wellformed scheme, `""` otherwise. -/
def urlScheme (source : String) : String :=
  match splitAtColon source.data with
  | some (pre, _) =>
    if pre ≠ [] ∧ (pre.headD 'a').isAlpha = true ∧ pre.all isSchemeChar = true
    then String.mk (pre.map Char.toLower)
    else ""
  | none => ""

/-- The remainder of the source after stripping a wellformed scheme. -/
def urlRest (source : String) : List Char :=
  match splitAtColon source.data with
  | some (pre, post) =>
    if pre ≠ [] ∧ (pre.headD 'a').isAlpha = true ∧ pre.all isSchemeChar = true
    then post
    else source.data
  | none => source.data

/-- The scheme and netloc fields of a successful `urlparse`. -/
structure UrlParts where
  scheme : String
  netloc : String
deriving DecidableEq

/-- `urllib.parse.urlparse(source)`, restricted to the fields the source
reads: the netloc is present only when the remainder after the scheme
starts with `//`, and runs to the first `/`, `?` or `#`; when that
netloc contains `[` without `]` or `]` without `[` the parse raises
`ValueError` ("Invalid IPv6 URL"), modelled as `none`. -/
def urlparse (source : String) : Option UrlParts :=
  match urlRest source with
  | '/' :: '/' :: tail =>
    let netlocChars := tail.takeWhile (fun c => c ≠ '/' ∧ c ≠ '?' ∧ c ≠ '#')
    if (netlocChars.contains '[' && !netlocChars.contains ']')
        || (netlocChars.contains ']' && !netlocChars.contains '[') then none
    else some ⟨urlScheme source, String.mk netlocChars⟩
  | _ => some ⟨urlScheme source, ""⟩

/-- vision.py `is_url`, lines 96-101: the source parses with an
`http`/`https` scheme; a `ValueError` from `urlparse` is caught and
yields `False`. -/
def is_url (source : String) : Bool :=
  match urlparse source with
  | none => false
  | some p => p.scheme == "http" || p.scheme == "https"

/-- Exact segment-at-head test for character lists. -/
def startsWithSeg : List Char → List Char → Bool
  | [], _ => true
  | _ :: _, [] => false
  | c :: cs, t :: ts => (c == t) && startsWithSeg cs ts

/-- Python's `pat in text` on strings: `pat` occurs contiguously in
`text`. -/
def containsSeg (pat : List Char) : List Char → Bool
  | [] => startsWithSeg pat []
  | t :: ts => startsWithSeg pat (t :: ts) || containsSeg pat ts

/-- vision.py `is_youtube_url`, lines 104-106: the lowercased host
contains `youtube.com` or `youtu.be` as a substring.  The source has no
`try`/`except` here, so a `ValueError` from `urlparse` would propagate;
the dispatch consults this function only after `is_url` has returned
`True`, which entails the parse succeeds, so the `none` branch below is
unreachable from `classify` and its value is immaterial. -/
def is_youtube_url (source : String) : Bool :=
  match urlparse source with
  | none => false
  | some p =>
    let host := p.netloc.data.map Char.toLower
    containsSeg ("youtube.com".data) host || containsSeg ("youtu.be".data) host

/-- The `VideoSource` classification of the spec's data model. -/
inductive VideoSource
  | Local
  | RemoteFile
  | PlatformHosted
deriving DecidableEq

/-- The dispatch of vision.py `prepare_video_input`, lines 191-207:
not a URL means a local path; a YouTube-host URL goes to the platform
extractor; any other URL goes to the generic downloader. -/
def classify (source : String) : VideoSource :=
  if !is_url source then VideoSource.Local
  else if is_youtube_url source then VideoSource.PlatformHosted
  else VideoSource.RemoteFile

/-! Section: Transcription (vision.py: `transcribe_audio` lines 281-301,
`extract_audio_and_transcribe` lines 304-337)

The transcription service is an oracle `TranscriptionModel → Except`;
each function returns, along with its result, the list of service calls
it made, in order. -/

/-- The two transcription model identifiers used by the source. -/
inductive TranscriptionModel
  | gpt4oTranscribe
  | whisper1
deriving DecidableEq

/-- vision.py `transcribe_audio`, lines 281-301: call the primary model;
on any exception, retry once with the fallback model, returning whatever
the fallback returns (its error, if any, propagates).  The second
component is the sequence of service calls made. -/
def transcribe_audio (svc : TranscriptionModel → Except String String) :
    Except String String × List TranscriptionModel :=
  match svc TranscriptionModel.gpt4oTranscribe with
  | Except.ok t => (Except.ok t, [TranscriptionModel.gpt4oTranscribe])
  | Except.error _ =>
    (svc TranscriptionModel.whisper1,
     [TranscriptionModel.gpt4oTranscribe, TranscriptionModel.whisper1])

/-- The sentinel transcript for a video with no audio track
(vision.py line 311). -/
def NO_AUDIO_SENTINEL : String := "There is no audio for this video."

/-- vision.py `extract_audio_and_transcribe`, lines 304-337, projected to
its return value and transcription-service call sequence.  `hasAudio`
models `clip.audio is not None`.  With no audio the sentinel transcript
and empty cue list are returned with no service call; otherwise the
transcript and its detected cues are returned, or the transcription
error propagates. -/
def extract_audio_and_transcribe (hasAudio : Bool)
    (svc : TranscriptionModel → Except String String) :
    Except String (String × List String) × List TranscriptionModel :=
  if !hasAudio then (Except.ok (NO_AUDIO_SENTINEL, []), [])
  else
    match transcribe_audio svc with
    | (Except.ok t, calls) => (Except.ok (t, detect_baby_sounds t), calls)
    | (Except.error e, calls) => (Except.error e, calls)

/-- A concrete transcription oracle whose primary model fails and whose
fallback succeeds, used to instantiate the fallback theorem. -/
def svcPrimaryFails : TranscriptionModel → Except String String
  | TranscriptionModel.gpt4oTranscribe => Except.error "boom"
  | TranscriptionModel.whisper1 => Except.ok "fallback transcript"

/-! Section: Analysis request builder (vision.py:
`analyze_frames_with_responses`, lines 340-394) -/

/-- One entry of the Responses-API `content` list built at
vision.py lines 361-372. -/
inductive ContentItem
  | inputText (s : String)
  | inputImage (b64 : String)
deriving DecidableEq

/-- `MAX_FRAMES` (vision.py line 351). -/
def MAX_FRAMES : ℕ := 12

/-- The cue summary sentence (vision.py lines 355-359). -/
def cuesText (baby_cues : List String) : String :=
  if !baby_cues.isEmpty
  then "Baby cry cues detected in audio: " ++ String.intercalate ", " baby_cues
  else "No specific Dunstan baby cry cues detected in audio."

/-- The Responses-API payload content (vision.py lines 350-372): three
text segments followed by one inline image per retained frame, the
retained frames being `base64frames[:MAX_FRAMES]`. -/
def responses_content (prompt_text transcript : String)
    (base64frames baby_cues : List String) : List ContentItem :=
  let frames := base64frames.take MAX_FRAMES
  [ContentItem.inputText prompt_text,
   ContentItem.inputText
     ("Video audio transcript (may be noisy/partial): " ++ transcript),
   ContentItem.inputText (cuesText baby_cues)]
  ++ frames.map ContentItem.inputImage

/-- The inline images of a content list, in order. -/
def imagesOf (l : List ContentItem) : List String :=
  l.filterMap (fun item =>
    match item with
    | ContentItem.inputImage b => some b
    | ContentItem.inputText _ => none)

/-! Section: Filesystem model of the pipeline (vision.py: `video_GPT` lines
432-471, `prepare_video_input` lines 191-207, `cleanup_paths` lines
210-220)

The filesystem is projected to presence flags for the four paths the
pipeline touches.  Service behaviour and failure injection are given by
a `Scenario` of booleans; a failing stage is modelled at the point where
the source raises. -/

/-- Presence flags for the paths the pipeline touches: the acquisition
temp directory, the frame scratch directory (`FRAME_FOLDER`), the
scratch audio file (`OUTPUT_AUDIO_PATH`), and the local input video
file. -/
structure FS where
  tempDir : Bool
  frameDir : Bool
  audioFile : Bool
  inputVideo : Bool
deriving DecidableEq

/-- A filesystem with no leftover scratch resources and the input video
present. -/
def cleanFS : FS := ⟨false, false, false, true⟩

/-- The fatal error classes of the pipeline. -/
inductive PipelineError
  | acquisition
  | transcription
  | inference
deriving DecidableEq

/-- One run's failure-injection choices: the source kind and which
external interactions fail.  `transcriptionFails` means both
transcription models fail (so `transcribe_audio` raises). -/
structure Scenario where
  sourceIsUrl : Bool
  downloadFails : Bool
  decodeFails : Bool
  hasAudio : Bool
  transcriptionFails : Bool
  inferenceFails : Bool
deriving DecidableEq

/-- vision.py `prepare_video_input` (lines 191-207) with the downloaders
(lines 131-188), projected to filesystem effect: a local source is
returned unchanged with no owned temp directory; a download creates a
temp directory, which the downloader itself removes again before
re-raising on failure.  The third component records whether an owned
temp directory was returned. -/
def prepare_video_input_fs (sc : Scenario) (fs : FS) :
    Option PipelineError × FS × Bool :=
  if !sc.sourceIsUrl then (none, fs, false)
  else if sc.downloadFails then
    (some PipelineError.acquisition, { fs with tempDir := false }, false)
  else (none, { fs with tempDir := true }, true)

/-- vision.py `extract_audio_and_transcribe` (lines 304-337), projected
to filesystem effect: with audio present the scratch audio file is
written; on transcription failure the exception propagates before the
`os.remove` at line 332, leaving the audio file in place; on success the
audio file is removed. -/
def extract_audio_and_transcribe_fs (hasAudio transcriptionFails : Bool)
    (fs : FS) : Option PipelineError × FS :=
  if !hasAudio then (none, fs)
  else
    let fs1 := { fs with audioFile := true }
    if transcriptionFails then (some PipelineError.transcription, fs1)
    else (none, { fs1 with audioFile := false })

/-- vision.py `cleanup_paths` (lines 210-220) as called at line 471 on
`[temp_dir, FRAME_FOLDER]`: removes the owned temp directory (skipped
when the slot is `None`) and the frame directory, and touches nothing
else. -/
def cleanup_paths_fs (ownedTempDir : Bool) (fs : FS) : FS :=
  let fs1 := if ownedTempDir then { fs with tempDir := false } else fs
  { fs1 with frameDir := false }

/-- vision.py `video_GPT` (lines 432-471), projected to filesystem
effect.  Acquisition runs before the `try` block, so an acquisition
failure propagates with no orchestrator cleanup (the downloader has
already removed its own temp directory).  Inside the `try`:
`extract_frames` first recreates the frame directory (`ensure_clean_dir`,
line 231) — a decode failure only yields zero frames and changes no
resource state — then audio extraction and transcription run, then
inference; the `finally` always removes the owned temp directory and the
frame directory.  Returns the propagated error (if any) and the final
filesystem. -/
def video_GPT_fs (sc : Scenario) (fs0 : FS) : Option PipelineError × FS :=
  match prepare_video_input_fs sc fs0 with
  | (some e, fs1, _) => (some e, fs1)
  | (none, fs1, owned) =>
    let fs2 := { fs1 with frameDir := true }
    match extract_audio_and_transcribe_fs sc.hasAudio sc.transcriptionFails fs2 with
    | (some e, fs3) => (some e, cleanup_paths_fs owned fs3)
    | (none, fs3) =>
      if sc.inferenceFails then
        (some PipelineError.inference, cleanup_paths_fs owned fs3)
      else (none, cleanup_paths_fs owned fs3)

/-! Section: Theorems -/

/-- Claim C2, counterexample: the spec says the stride is
`max(1, round(fps * interval_sec))`, but vision.py line 247 computes
`max(1, int(fps * interval_sec))`.  At `fps = 3`, `interval_sec = 0.9`
the product is `2.7`: the code's stride is `2` while the claimed formula
gives `3`. -/
theorem frame_skip_counterexample :
    frame_skip 3 (9/10) = 2 ∧ max 1 (round ((3 : ℚ) * (9/10))) = 3 := by
  with_unfolding_all decide

/-- Claim C2, amended: the frame sampler computes its stride as
`frame_skip = max(1, int(fps * interval_sec))`, where `int` truncates
toward zero.  Equivalently (for a nonnegative product, truncation being
the floor there): the stride is the unique integer with
`stride ≤ max(1, fps * interval_sec) < stride + 1`, and is always at
least 1. -/
theorem frame_skip_amended_spec (fps interval_sec : ℚ)
    (h : 0 ≤ fps * interval_sec) :
    1 ≤ frame_skip fps interval_sec ∧
    ((frame_skip fps interval_sec : ℚ) ≤ max 1 (fps * interval_sec)) ∧
    (max 1 (fps * interval_sec) < (frame_skip fps interval_sec : ℚ) + 1) := by
  have hfloor : frame_skip fps interval_sec = max 1 ⌊fps * interval_sec⌋ := by
    unfold frame_skip pyInt
    rw [if_pos h]
  refine ⟨?_, ?_, ?_⟩
  · rw [hfloor]; exact le_max_left 1 _
  · rw [hfloor]
    push_cast
    exact max_le_max le_rfl (Int.floor_le _)
  · rw [hfloor]
    push_cast
    apply max_lt
    · have h1 : (1 : ℚ) ≤ max 1 (⌊fps * interval_sec⌋ : ℚ) := le_max_left 1 _
      linarith
    · have h2 : (fps * interval_sec : ℚ) < ⌊fps * interval_sec⌋ + 1 :=
        Int.lt_floor_add_one _
      have h3 : ((⌊fps * interval_sec⌋ : ℚ)) ≤ max 1 (⌊fps * interval_sec⌋ : ℚ) :=
        le_max_right 1 _
      linarith

/-- Witness for the amended C2 theorem at `fps = 30`,
`interval_sec = 0.5`. -/
theorem frame_skip_amended_witness :
    1 ≤ frame_skip 30 (1/2) ∧
    ((frame_skip 30 (1/2) : ℚ) ≤ max 1 ((30 : ℚ) * (1/2))) ∧
    (max 1 ((30 : ℚ) * (1/2)) < (frame_skip 30 (1/2) : ℚ) + 1) :=
  frame_skip_amended_spec 30 (1/2) (by norm_num)

/-- Claim C3: on a 10-second 30fps video (300 native frames), sampling
with `start_sec = 2`, `end_sec = 5`, `interval_sec = 0.5` persists
exactly the 6 frames with native indices 60, 75, 90, 105, 120, 135 —
one stride (15 frames) apart starting at the 2-second mark — and every
persisted frame's timestamp is strictly below 5 seconds.  The result is
the same whether the stream reports its post-seek position (60) or
reports nothing and the sampler falls back to `start_sec * fps`. -/
theorem sample_window_example :
    extract_frames true 30 60 300 (1/2) 2 (some 5) = [60, 75, 90, 105, 120, 135] ∧
    extract_frames true 30 0 300 (1/2) 2 (some 5) = [60, 75, 90, 105, 120, 135] ∧
    (extract_frames true 30 60 300 (1/2) 2 (some 5)).length = 6 ∧
    (extract_frames true 30 60 300 (1/2) 2 (some 5)).all
      (fun k => decide ((k : ℚ) / 30 < 5)) = true := by
  with_unfolding_all decide

/-- Claim C8: a window whose bounded end is at or before its start is
normalized to unbounded-end with a warning (the source prints a
diagnostic and continues; nothing is raised), and the sampler then
behaves exactly as with no end bound at all. -/
theorem invalid_window_normalized (s e : ℚ) (h : e ≤ s) :
    normalize_window s (some e) = ⟨max 0 s, none, true⟩ ∧
    ∀ (o : Bool) (fr p : ℚ) (n : ℕ) (i : ℚ),
      extract_frames o fr p n i s (some e) = extract_frames o fr p n i s none := by
  have hle : e ≤ max 0 s := le_trans h (le_max_right 0 s)
  have h1 : normalize_window s (some e) = ⟨max 0 s, none, true⟩ := by
    simp [normalize_window, hle]
  refine ⟨h1, ?_⟩
  intro o fr p n i
  have h2 : normalize_window s none = ⟨max 0 s, none, false⟩ := rfl
  simp only [extract_frames, h1, h2]

/-- Witness for the C8 theorem at `start_sec = 5`, `end_sec = 3`. -/
theorem invalid_window_witness :
    normalize_window 5 (some 3) = ⟨max 0 5, none, true⟩ ∧
    extract_frames true 30 0 10 1 5 (some 3) = extract_frames true 30 0 10 1 5 none :=
  ⟨(invalid_window_normalized 5 3 (by norm_num)).1,
   (invalid_window_normalized 5 3 (by norm_num)).2 true 30 0 10 1⟩

/-- Claim C4: `transcribe_audio` attempts the primary model first; when
the primary attempt returns an error, exactly one retry is made with the
fallback model and the overall result is exactly the fallback's result —
its text on success (no merging of partial primary output), its error on
failure — with no third call. -/
theorem transcribe_fallback_spec
    (svc : TranscriptionModel → Except String String) :
    ((transcribe_audio svc).2.head? = some TranscriptionModel.gpt4oTranscribe) ∧
    (∀ t, svc TranscriptionModel.gpt4oTranscribe = Except.ok t →
      transcribe_audio svc = (Except.ok t, [TranscriptionModel.gpt4oTranscribe])) ∧
    (∀ e, svc TranscriptionModel.gpt4oTranscribe = Except.error e →
      (transcribe_audio svc).1 = svc TranscriptionModel.whisper1 ∧
      (transcribe_audio svc).2 =
        [TranscriptionModel.gpt4oTranscribe, TranscriptionModel.whisper1]) := by
  refine ⟨?_, ?_, ?_⟩
  · unfold transcribe_audio
    cases svc TranscriptionModel.gpt4oTranscribe <;> rfl
  · intro t ht
    unfold transcribe_audio
    rw [ht]
  · intro e he
    unfold transcribe_audio
    rw [he]
    exact ⟨rfl, rfl⟩

/-- Witness for the C4 theorem with a concrete oracle whose primary
model fails and whose fallback succeeds. -/
theorem transcribe_fallback_witness :
    (transcribe_audio svcPrimaryFails).1 = Except.ok "fallback transcript" ∧
    (transcribe_audio svcPrimaryFails).2 =
      [TranscriptionModel.gpt4oTranscribe, TranscriptionModel.whisper1] := by
  have h := (transcribe_fallback_spec svcPrimaryFails).2.2 "boom" rfl
  exact ⟨h.1.trans rfl, h.2⟩

/-- Claim C5: a string is a URL exactly when it parses (no `ValueError`)
with an `http`/`https` scheme; classification returns `Local` exactly
when the string is not a URL in that sense (a local path),
`PlatformHosted` exactly when it is a URL whose host matches the
platform pattern (`is_youtube_url`), and `RemoteFile` exactly in the
remaining URL cases.  Concrete instances cover all three classes and
the parse-failure path: `"http://[abc"` makes `urlparse` raise
`Invalid IPv6 URL`, so the program classifies it `Local`. -/
theorem classify_cases (source : String) :
    (is_url source = true ↔
      (∃ p, urlparse source = some p ∧
        (p.scheme = "http" ∨ p.scheme = "https"))) ∧
    (classify source = VideoSource.Local ↔ is_url source = false) ∧
    (classify source = VideoSource.PlatformHosted ↔
      (is_url source = true ∧ is_youtube_url source = true)) ∧
    (classify source = VideoSource.RemoteFile ↔
      (is_url source = true ∧ is_youtube_url source = false)) ∧
    classify "/home/user/video.mp4" = VideoSource.Local ∧
    classify "https://www.youtube.com/watch?v=abc" = VideoSource.PlatformHosted ∧
    classify "https://cdn.example.com/v.mp4" = VideoSource.RemoteFile ∧
    classify "http://[abc" = VideoSource.Local := by
  refine ⟨?_, ?_, ?_, ?_, ?_, ?_, ?_, ?_⟩
  · unfold is_url
    cases h : urlparse source with
    | none => simp [h]
    | some p => simp [h, Bool.or_eq_true, beq_iff_eq]
  · unfold classify
    cases h1 : is_url source <;> cases h2 : is_youtube_url source <;> simp
  · unfold classify
    cases h1 : is_url source <;> cases h2 : is_youtube_url source <;> simp
  · unfold classify
    cases h1 : is_url source <;> cases h2 : is_youtube_url source <;> simp
  · with_unfolding_all decide
  · with_unfolding_all decide
  · with_unfolding_all decide
  · with_unfolding_all decide

/-- Claim C6: cue detection reports each vocabulary token at most once
(the result list has no duplicates), a token is reported exactly when it
has a case-insensitive whole-word occurrence somewhere in the transcript
(so detection is insensitive to case and repetition, and rescanning
cannot add anything), and the transcript "neh neh HEH" yields exactly
`NEH` and `HEH`, once each. -/
theorem detect_baby_sounds_spec (t : String) :
    (detect_baby_sounds t).Nodup ∧
    (∀ cue : String, cue ∈ detect_baby_sounds t ↔
      (cue ∈ BABY_CRY_CUES ∧ wordBoundarySearch cue t = true)) ∧
    detect_baby_sounds "neh neh HEH" = ["NEH", "HEH"] := by
  refine ⟨?_, ?_, ?_⟩
  · exact List.Nodup.filter _ (by decide)
  · intro cue
    simp [detect_baby_sounds, List.mem_filter]
  · with_unfolding_all decide

/-- Claim C7: the analysis request builder's payload carries, as its
inline images, exactly the first `min(length, MAX_FRAMES)` input frames
in input order — a prefix of the input sequence, never resampled or
reordered — and given 40 frames it carries exactly the first 12. -/
theorem frames_cap_spec (p t : String) (cues frames : List String) :
    imagesOf (responses_content p t frames cues) = frames.take MAX_FRAMES ∧
    frames.take MAX_FRAMES <+: frames ∧
    (frames.take MAX_FRAMES).length = min frames.length MAX_FRAMES ∧
    imagesOf (responses_content p t ((List.range 40).map toString) cues) =
      (List.range 12).map toString := by
  have himg : ∀ (l : List String),
      imagesOf (responses_content p t l cues) = l.take MAX_FRAMES := by
    intro l
    unfold imagesOf responses_content
    rw [List.filterMap_append, List.filterMap_map]
    simp only [List.filterMap_cons, List.filterMap_nil, List.nil_append]
    exact List.filterMap_some _
  refine ⟨himg frames, List.take_prefix _ _, ?_, ?_⟩
  · rw [List.length_take, Nat.min_comm]
  · rw [himg ((List.range 40).map toString)]
    with_unfolding_all decide

/-- Claim C9: for a video with no audio track,
`extract_audio_and_transcribe` returns normally (never raises) with the
fixed sentinel transcript and an empty cue set, and makes zero calls to
the transcription service — whatever the service would have answered. -/
theorem no_audio_sentinel_spec
    (svc : TranscriptionModel → Except String String) :
    extract_audio_and_transcribe false svc =
      (Except.ok (NO_AUDIO_SENTINEL, []), []) := rfl

/-- Claim C1, counterexample: inject a transcription failure (local
source, audio present, both transcription models failing) on a clean
filesystem.  The run ends with the transcription error propagated; the
temp-directory slot and the frame directory are absent, but the scratch
audio file — created before the injection point — is still present: the
`os.remove` at vision.py line 332 sits after the transcription call
rather than in a `finally`, and `video_GPT`'s cleanup at line 471 only
covers the temp directory and the frame folder. -/
theorem cleanup_counterexample :
    video_GPT_fs ⟨false, false, false, true, true, false⟩ cleanFS =
      (some PipelineError.transcription, ⟨false, false, true, true⟩) := by decide

/-- Claim C1, amended: for every run from a clean filesystem, the
acquisition temp directory and the frame scratch directory are absent
when the run completes, at every injection point and on success; the
scratch audio file is absent in every case except a transcription
failure on a video with audio, where it remains on disk. -/
theorem cleanup_amended (u dl dec ha tf inf : Bool) :
    ((video_GPT_fs ⟨u, dl, dec, ha, tf, inf⟩ cleanFS).2.tempDir = false) ∧
    ((video_GPT_fs ⟨u, dl, dec, ha, tf, inf⟩ cleanFS).2.frameDir = false) ∧
    ((video_GPT_fs ⟨u, dl, dec, ha, tf, inf⟩ cleanFS).2.audioFile =
      ((!(u && dl)) && ha && tf)) := by
  revert u dl dec ha tf inf
  decide

/-- Claim C10: for a local (non-URL) source, over every failure
injection and every starting filesystem, the pipeline never deletes the
input video file, leaves the acquisition temp-directory slot untouched
(it is `None`, so cleanup skips it), and removes the frame scratch
directory at the end — on success and failure paths alike. -/
theorem local_input_preserved (dl dec ha tf inf t f a v : Bool) :
    ((video_GPT_fs ⟨false, dl, dec, ha, tf, inf⟩ ⟨t, f, a, v⟩).2.inputVideo = v) ∧
    ((video_GPT_fs ⟨false, dl, dec, ha, tf, inf⟩ ⟨t, f, a, v⟩).2.tempDir = t) ∧
    ((video_GPT_fs ⟨false, dl, dec, ha, tf, inf⟩ ⟨t, f, a, v⟩).2.frameDir = false) := by
  revert dl dec ha tf inf t f a v
  decide

end BabyAgent
